import Mathlib

/-!
Shallow embedding of the session core of vialer-js: the `ModuleUser`
background module (`src/js/bg/modules/user.js`, `login` / `logout`) and the
`CallSwitch` foreground component (`newCallAllowed`) from the same file.

State mutation in the source happens through `app.setState(patch, options)`
calls; we embed each such call as an explicit `Patch` (recording exactly the
keys the JS object literal mentions) applied to an `AppState`, and keep an
event trace recording every externally visible effect (`setState` calls with
their options, notifications, API-client credential changes, crypto-provider
calls, the `window.failMessage` global write, call-subsystem triggers).
-/

namespace Vialer

/-- Basic-auth tokens kept under `user.platform.tokens` in the store. -/
structure Tokens where
  portal : Option String
  sip : Option String
deriving DecidableEq

/-- The `user` branch of the store, as set up by `ModuleUser._initialState`
plus the extra fields (`client_id`, `id`, `realName`) that login merges in. -/
structure UserState where
  authenticated : Bool
  developer : Bool
  password : String
  tokens : Tokens
  username : Option String
  client_id : Option String
  id : Option Int
  realName : Option String
deriving DecidableEq

/-- The `settings.vault` branch touched by `logout`. -/
structure VaultSettings where
  active : Bool
  unlocked : Bool
deriving DecidableEq

/-- The `ui` branch touched by login/logout (`ui.layer`, `ui.menubar.default`). -/
structure Ui where
  layer : String
  menubarDefault : String
deriving DecidableEq

/-- The `app.installed` / `app.updated` one-shot flags. -/
structure AppFlags where
  installed : Bool
  updated : Bool
deriving DecidableEq

/-- The persistence backend: the `state.encrypted` flag read by login, and the
persisted cryptographic salt owned by the crypto identity provider. -/
structure Store where
  encrypted : Bool
  salt : Option String
deriving DecidableEq

/-- The whole application state visible to this module, together with the
process-global `window.failMessage` variable written on rate-limited logins. -/
structure AppState where
  user : UserState
  settings : VaultSettings
  ui : Ui
  app : AppFlags
  store : Store
  windowFailMessage : Option String
deriving DecidableEq

/-- One `setState` patch: each field is `some v` exactly when the JS object
literal of the corresponding `setState` call mentions that key with value `v`,
and `none` when the deep merge leaves the key untouched. No patch in this
module ever mentions the salt or the `state.encrypted` flag. -/
structure Patch where
  userPassword : Option String := none
  userAuthenticated : Option Bool := none
  userUsername : Option (Option String) := none
  userClientId : Option String := none
  userId : Option Int := none
  userSipToken : Option (Option String) := none
  userPortalToken : Option (Option String) := none
  userRealName : Option String := none
  vaultActive : Option Bool := none
  vaultUnlocked : Option Bool := none
  uiLayer : Option String := none
  uiMenubarDefault : Option String := none
  appInstalled : Option Bool := none
  appUpdated : Option Bool := none
deriving DecidableEq

/-- The `setState` options object: `persist` defaults to off, `encrypt` is an
explicit override of the store's encryption policy (absent when the object
literal does not mention it). -/
structure Opts where
  persist : Bool := false
  encrypt : Option Bool := none
deriving DecidableEq

/-- Deep-merge semantics of `setState`: mentioned keys are overwritten, all
other keys (in particular the whole `Store` and `window.failMessage`) are
left as they are. -/
def Patch.apply (p : Patch) (s : AppState) : AppState :=
  { user :=
      { authenticated := p.userAuthenticated.getD s.user.authenticated
        developer := s.user.developer
        password := p.userPassword.getD s.user.password
        tokens :=
          { portal := p.userPortalToken.getD s.user.tokens.portal
            sip := p.userSipToken.getD s.user.tokens.sip }
        username := p.userUsername.getD s.user.username
        client_id := match p.userClientId with
          | none => s.user.client_id
          | some v => some v
        id := match p.userId with
          | none => s.user.id
          | some v => some v
        realName := match p.userRealName with
          | none => s.user.realName
          | some v => some v }
    settings :=
      { active := p.vaultActive.getD s.settings.active
        unlocked := p.vaultUnlocked.getD s.settings.unlocked }
    ui :=
      { layer := p.uiLayer.getD s.ui.layer
        menubarDefault := p.uiMenubarDefault.getD s.ui.menubarDefault }
    app :=
      { installed := p.appInstalled.getD s.app.installed
        updated := p.appUpdated.getD s.app.updated }
    store := s.store
    windowFailMessage := s.windowFailMessage }

/-- User-facing notification texts. Each constructor stands for one `$t`
translation template of the source, carrying its interpolation arguments. -/
inductive NotifyMessage where
  | rateLimited (date : String)
  | invalidCredentials
  | reviewSettings
  | welcomeBack (realName : String)
  | goodbye
deriving DecidableEq

/-- Payload of an `fg:notify` emission. `message` is `none` when the JS
`message` variable is still `undefined` at the emit; `msgType` embeds the JS
`type` field. -/
structure Notification where
  icon : String
  message : Option NotifyMessage
  msgType : String
  timeout : Option Nat
deriving DecidableEq

/-- Externally visible effects of a login/logout run, in program order. -/
inductive Event where
  | setState (p : Patch) (o : Opts)
  | notify (n : Notification)
  | setupClient (creds : Option (String × String))
  | unlockVault (username password : String)
  | loadIdentity (username password : String)
  | disconnect (reconnect : Bool)
  | initServices
  | setWindowFailMessage (msg : String)
deriving DecidableEq

/-- The error body of a failed profile response. -/
structure ApiError where
  message : String
deriving DecidableEq

/-- Fields of the profile response body consumed by `login`. `client` is an
`Option` so that both an absent field and the empty string model JS-falsy
values. -/
structure ProfileData where
  error : Option ApiError := none
  token : Option String := none
  first_name : String := ""
  preposition : String := ""
  last_name : String := ""
  client : Option String := none
  id : Int := 0
deriving DecidableEq

/-- A profile response: HTTP status plus body. -/
structure ApiResponse where
  status : Nat
  data : ProfileData
deriving DecidableEq

/-- Modelled from the spec: `api.NOTOK_STATUS` lives in the api module, which
is not under src/; per the spec a non-2xx status is NOTOK. -/
def notokStatus (status : Nat) : Bool :=
  decide (status < 200 ∨ 299 < status)

/-- JS falsiness of the `user.client` field: absent, null or empty string. -/
def falsyClient : Option String → Bool
  | none => true
  | some c => c == ""

/-- Decides whether `pat` is a prefix of `l` (character lists). -/
def listStartsWith : List Char → List Char → Bool
  | _, [] => true
  | [], _ :: _ => false
  | a :: as, b :: bs => a == b && listStartsWith as bs

/-- Decides whether `pat` occurs contiguously inside `l`; embeds
`String.prototype.includes`. -/
def listContains : List Char → List Char → Bool
  | [], pat => listStartsWith [] pat
  | a :: as, pat => listStartsWith (a :: as) pat || listContains as pat

/-- JS `s.includes(pat)`. -/
def jsIncludes (s pat : String) : Bool :=
  listContains s.toList pat.toList

/-- JS `String.prototype.substring(a, b)`: both indices are clamped into
`[0, length]` and swapped when out of order. -/
def jsSubstring (s : String) (a b : Int) : String :=
  let len : Int := s.length
  let a' : Nat := (min (max a 0) len).toNat
  let b' : Nat := (min (max b 0) len).toNat
  let lo : Nat := min a' b'
  let hi : Nat := max a' b'
  String.mk ((s.toList.drop lo).take (hi - lo))

/-- The rate-limit marker searched for in the error message (`user.js:88`). -/
def rateLimitMarker : String := "Too many failed login attempts"

/-- The `realName` join of `user.js:104`: first name, preposition and last
name with empty segments dropped, single-space separated. -/
def joinRealName (first prep last : String) : String :=
  String.intercalate " " ([first, prep, last].filter (fun i => i != ""))

/-- The `client.replace` of `user.js:136` with pattern class excluding digits
and the dot: every character that is neither a decimal digit nor a literal
dot is removed. -/
def stripClientId (s : String) : String :=
  String.mk (s.toList.filter (fun c => c.isDigit || c == '.'))

/-- The patch of `user.js:118`: sets only the authentication flag and the
username. -/
def authFlagPatch (username : String) : Patch :=
  { userAuthenticated := some true, userUsername := some (some username) }

/-- The patch of `user.js:130`: resets the one-shot install/update flags and
sets the post-login landing view. -/
def postLoginUiPatch (startLayer : String) : Patch :=
  { appInstalled := some false
    appUpdated := some false
    uiLayer := some startLayer
    uiMenubarDefault := some "active" }

/-- The credential-bearing patch of `user.js:134`: client id (stripped), user
id, plaintext password, SIP token and realName. -/
def credentialPatch (password : String) (d : ProfileData) : Patch :=
  { userClientId := some (stripClientId (d.client.getD ""))
    userId := some d.id
    userPassword := some password
    userSipToken := some d.token
    userRealName :=
      some (joinRealName d.first_name d.preposition d.last_name) }

/-- The password-clearing patch used by the failure branch of `login` and the
first `setState` of `logout`. -/
def passwordClearPatch : Patch := { userPassword := some "" }

/-- The always-persisted, never-encrypted patch of `user.js:164`: deactivates
and locks the vault UI flags, navigates to the login view and clears the
authentication flag. -/
def logoutClearPatch : Patch :=
  { userAuthenticated := some false
    vaultActive := some false
    vaultUnlocked := some false
    uiLayer := some "login" }

/-- The final menubar patch of `logout` (`user.js:174`), with no options. -/
def menubarInactivePatch : Patch := { uiMenubarDefault := some "inactive" }

/-- Embedding of `ModuleUser.logout` (`user.js:157`). The conditional options
of the first `setState` (persist only when previously authenticated) mirror
the ternary on `user.js:163`; the salt is owned by the persistence backend
and no patch of this function mentions it. -/
def logout (s : AppState) : AppState × List Event :=
  let o1 : Opts := if s.user.authenticated then { persist := true } else {}
  let s1 := passwordClearPatch.apply s
  let o2 : Opts := { persist := true, encrypt := some false }
  let s2 := logoutClearPatch.apply s1
  let s3 := menubarInactivePatch.apply s2
  (s3,
   [Event.setState passwordClearPatch o1,
    Event.setState logoutClearPatch o2,
    Event.setupClient none,
    Event.disconnect false,
    Event.notify
      { icon := "user", message := some NotifyMessage.goodbye
        msgType := "success", timeout := none },
    Event.setState menubarInactivePatch {}])

/-- Modelled from the spec: `app.__unlockVault` (application core, not under
src/) re-derives the vault key from the existing salt and materializes the
decrypted state; it never touches the salt. -/
def unlockVaultEffect (s : AppState) : AppState :=
  { s with settings := { s.settings with unlocked := true } }

/-- Modelled from the spec: `app.crypto.loadIdentity` (application core, not
under src/) derives a fresh identity key, creating the persisted salt
transactionally on first use and keeping an existing salt. -/
def loadIdentityEffect (freshSalt : String) (s : AppState) : AppState :=
  match s.store.salt with
  | some _ => s
  | none => { s with store := { s.store with salt := some freshSalt } }

/-- The failure notification of `user.js:81`: with an error body the message
is set only in the rate-limit case (otherwise the JS `message` variable stays
`undefined`), without an error body the generic text is used. -/
def failureNotification (d : ProfileData) : Option NotifyMessage :=
  match d.error with
  | some err =>
      if jsIncludes err.message rateLimitMarker then
        some (NotifyMessage.rateLimited
          (jsSubstring err.message
            ((err.message.length : Int) - 9) ((err.message.length : Int) - 1)))
      else none
  | none => some NotifyMessage.invalidCredentials

/-- The raw failure message written to `window.failMessage` (`user.js:90`),
present exactly on the rate-limited branch. -/
def rateLimitFailMessage (d : ProfileData) : Option String :=
  match d.error with
  | some err =>
      if jsIncludes err.message rateLimitMarker then some err.message else none
  | none => none

/-- The NOTOK branch of `login` (`user.js:81`): classify the failure, emit
the notification, clear the in-memory password (options object absent, so not
persisted) and return. -/
def loginFailure (s : AppState) (d : ProfileData) : AppState × List Event :=
  let s1 := match rateLimitFailMessage d with
    | some m => { s with windowFailMessage := some m }
    | none => s
  ((passwordClearPatch.apply s1),
   (match rateLimitFailMessage d with
     | some m => [Event.setWindowFailMessage m]
     | none => []) ++
   [Event.notify
      { icon := "warning", message := failureNotification d
        msgType := "warning", timeout := none },
    Event.setState passwordClearPatch {}])

/-- The entitled success branch of `login` (`user.js:111`): unlock or create
the vault key, persist the authentication flag unencrypted, pick the landing
view and notification, persist the one-shot flags and landing view, persist
the credential-bearing update under the store's normal encryption policy, and
initialize dependent services. -/
def loginEntitled (s : AppState) (username password : String)
    (d : ProfileData) (freshSalt : String) : AppState × List Event :=
  let (s1, cryptoEv) :=
    if s.store.encrypted then
      (unlockVaultEffect s, Event.unlockVault username password)
    else
      (loadIdentityEffect freshSalt s, Event.loadIdentity username password)
  let s2 := (authFlagPatch username).apply s1
  let startLayer := if s2.app.installed then "settings" else "contacts"
  let notif : Notification :=
    if s2.app.installed then
      { icon := "settings", message := some NotifyMessage.reviewSettings
        msgType := "warning", timeout := some 0 }
    else
      { icon := "user"
        message := some (NotifyMessage.welcomeBack
          (joinRealName d.first_name d.preposition d.last_name))
        msgType := "success", timeout := none }
  let s3 := (postLoginUiPatch startLayer).apply s2
  let s4 := (credentialPatch password d).apply s3
  (s4,
   [cryptoEv,
    Event.setState (authFlagPatch username) { persist := true, encrypt := some false },
    Event.notify notif,
    Event.setState (postLoginUiPatch startLayer) { persist := true, encrypt := some false },
    Event.setState (credentialPatch password d) { persist := true },
    Event.initServices])

/-- Embedding of `ModuleUser.login` (`user.js:76`). The profile response is a
parameter (the network call is the suspension point); `freshSalt` models the
salt the crypto provider would generate on a first-time identity. -/
def login (s : AppState) (username password : String) (res : ApiResponse)
    (freshSalt : String) : AppState × List Event :=
  let r :=
    if notokStatus res.status then
      loginFailure s res.data
    else
      if falsyClient res.data.client then
        logout s
      else
        loginEntitled s username password res.data freshSalt
  (r.1, Event.setupClient (some (username, password)) :: r.2)

/-- Recognizes a persisted `setState` event. -/
def isPersistedSetState : Event → Bool
  | Event.setState _ o => o.persist
  | _ => false

/-- Recognizes a notification event. -/
def isNotify : Event → Bool
  | Event.notify _ => true
  | _ => false

/-- The store contents of `ModuleUser._initialState` (`user.js:42`), placed
in an otherwise fresh application state with no salt. -/
def initialState : AppState :=
  { user :=
      { authenticated := false
        developer := false
        password := ""
        tokens := { portal := none, sip := none }
        username := none
        client_id := none
        id := none
        realName := none }
    settings := { active := false, unlocked := false }
    ui := { layer := "login", menubarDefault := "inactive" }
    app := { installed := false, updated := false }
    store := { encrypted := false, salt := none }
    windowFailMessage := none }

/-- One call of the `CallSwitch` component's call set. -/
structure Call where
  id : String
  status : String
deriving DecidableEq

/-- The statuses that block starting a new call (`user.js:259`). -/
def blockingStatuses : List String := ["new", "create", "invite"]

/-- Embedding of `CallSwitch.newCallAllowed` (`user.js:256`): iterate over
the call set, flipping `available` to false on every blocking status. -/
def newCallAllowed (calls : List Call) : Bool :=
  calls.foldl
    (fun available c =>
      if blockingStatuses.contains c.status then false else available)
    true

/-- A NOTOK response whose error body is not the rate-limited case. -/
def badCredsResponse : ApiResponse :=
  { status := 403
    data := { error := some { message := "Invalid credentials provided" } } }

/-- The rate-limit error message of the spec's worked example. -/
def rateLimitMessageText : String :=
  "Too many failed login attempts; try again at 13:45:00Z"

/-- A NOTOK response carrying the rate-limit error body. -/
def rateLimitResponse : ApiResponse :=
  { status := 403
    data := { error := some { message := rateLimitMessageText } } }

/-- A 2xx response for an entitled client account. -/
def entitledResponse : ApiResponse :=
  { status := 200
    data := { token := some "sip-token", first_name := "Jane", preposition := "",
              last_name := "Doe", client := some "client-42", id := 7 } }

/-- A 2xx response whose raw client identifier contains a dot. -/
def dottedClientResponse : ApiResponse :=
  { status := 200, data := { client := some "12.34", id := 1 } }

/-- A 2xx response for a valid account without client-type entitlement. -/
def unentitledResponse : ApiResponse := { status := 200, data := {} }

end Vialer

namespace Vialer

/-! Helper lemmas about the JS string primitives, the crypto-provider frame,
and the `newCallAllowed` fold. -/

theorem listStartsWith_length (l pat : List Char) (h : listStartsWith l pat = true) :
    pat.length ≤ l.length := by
  induction l generalizing pat with
  | nil =>
    cases pat with
    | nil => simp
    | cons b bs => simp [listStartsWith] at h
  | cons a as ih =>
    cases pat with
    | nil => simp
    | cons b bs =>
      simp only [listStartsWith, Bool.and_eq_true] at h
      simpa using ih bs h.2

theorem listContains_length (l pat : List Char) (h : listContains l pat = true) :
    pat.length ≤ l.length := by
  induction l with
  | nil => exact listStartsWith_length [] pat h
  | cons a as ih =>
    simp only [listContains, Bool.or_eq_true] at h
    rcases h with h | h
    · exact listStartsWith_length _ _ h
    · exact le_trans (ih h) (by simp)

theorem jsIncludes_length (s pat : String) (h : jsIncludes s pat = true) :
    pat.length ≤ s.length :=
  listContains_length s.toList pat.toList h

theorem jsSubstring_tail_window (str : String) (h : 9 ≤ str.length) :
    (jsSubstring str ((str.length : Int) - 9) ((str.length : Int) - 1)).toList =
      (str.toList.drop (str.length - 9)).take 8 := by
  have h1 : (min (max ((str.length : Int) - 9) 0) (str.length : Int)).toNat
      = str.length - 9 := by omega
  have h2 : (min (max ((str.length : Int) - 1) 0) (str.length : Int)).toNat
      = str.length - 1 := by omega
  simp only [jsSubstring, h1, h2]
  have h3 : min (str.length - 9) (str.length - 1) = str.length - 9 := by omega
  have h4 : max (str.length - 9) (str.length - 1) = str.length - 1 := by omega
  have h5 : str.length - 1 - (str.length - 9) = 8 := by omega
  rw [h3, h4, h5]
  rfl

theorem jsSubstring_tail_window_length (str : String) (h : 9 ≤ str.length) :
    (jsSubstring str ((str.length : Int) - 9) ((str.length : Int) - 1)).length = 8 := by
  have hw := jsSubstring_tail_window str h
  have hl : (jsSubstring str ((str.length : Int) - 9) ((str.length : Int) - 1)).length
      = ((str.toList.drop (str.length - 9)).take 8).length := by
    rw [← hw]; rfl
  rw [hl, List.length_take, List.length_drop]
  have h6 : str.toList.length = str.length := rfl
  omega

theorem loadIdentityEffect_user (salt : String) (s : AppState) :
    (loadIdentityEffect salt s).user = s.user := by
  unfold loadIdentityEffect; split <;> rfl

theorem loadIdentityEffect_app (salt : String) (s : AppState) :
    (loadIdentityEffect salt s).app = s.app := by
  unfold loadIdentityEffect; split <;> rfl

theorem unlockVaultEffect_user (s : AppState) :
    (unlockVaultEffect s).user = s.user := rfl

theorem unlockVaultEffect_app (s : AppState) :
    (unlockVaultEffect s).app = s.app := rfl

theorem newCallAllowed_foldl_eq (calls : List Call) (b : Bool) :
    calls.foldl
      (fun available c =>
        if blockingStatuses.contains c.status then false else available) b =
      (b && calls.all (fun c => !(blockingStatuses.contains c.status))) := by
  induction calls generalizing b with
  | nil => simp
  | cons c cs ih =>
    rw [List.foldl_cons, ih, List.all_cons]
    cases hb : blockingStatuses.contains c.status <;> simp

theorem newCallAllowed_eq_all (calls : List Call) :
    newCallAllowed calls = calls.all (fun c => !(blockingStatuses.contains c.status)) := by
  unfold newCallAllowed
  rw [newCallAllowed_foldl_eq]
  simp

/-- C1: every execution of `logout` leaves the persisted cryptographic salt
unchanged — no patch of `logout` mentions the salt, so a later login or
unlock with the same credentials can re-derive the vault key. -/
theorem logout_preserves_salt (s : AppState) :
    ((logout s).1).store.salt = s.store.salt := rfl

/-- C2 counterexample: invoked from an unauthenticated (lock-screen) context,
`logout` still persists the update that clears the authentication flag — the
conditional persistence applies to the password clear, not to the
authentication-flag clear, refuting the claim that no persistence of that
clear is attempted. -/
theorem logout_unauthenticated_persists_auth_clear :
    initialState.user.authenticated = false ∧
    logoutClearPatch.userAuthenticated = some false ∧
    Event.setState logoutClearPatch { persist := true, encrypt := some false } ∈
      (logout initialState).2 := by
  decide

/-- C2 amended: in `logout` the update whose persistence is conditional on
prior authentication is the password clear; the update clearing the
authentication flag is always persisted (with encryption disabled), also from
a locked context. -/
theorem logout_persistence_policy (s : AppState) :
    Event.setState passwordClearPatch
        { persist := s.user.authenticated, encrypt := none } ∈ (logout s).2 ∧
    Event.setState logoutClearPatch
        { persist := true, encrypt := some false } ∈ (logout s).2 ∧
    (∀ o : Opts, Event.setState logoutClearPatch o ∈ (logout s).2 →
      o.persist = true) := by
  refine ⟨?_, ?_, ?_⟩
  · cases h : s.user.authenticated <;> simp [logout, h]
  · simp [logout]
  · intro o ho
    simp only [logout, List.mem_cons, List.not_mem_nil, or_false] at ho
    rcases ho with ho | ho | ho | ho | ho | ho <;>
      first
      | (injection ho with hp hop
         exact absurd hp (by decide))
      | (injection ho with hp hop; rw [hop])
      | exact absurd ho (by simp)

/-- C3: on a NOTOK profile response, `login` leaves `authenticated` false,
clears the in-memory password, leaves the persistence backend (salt and
encrypted flag) and the vault settings untouched, and performs no persisted
state update at all. -/
theorem login_failure_frame (s : AppState) (u pw : String) (res : ApiResponse)
    (salt : String) (hnotok : notokStatus res.status = true)
    (hauth : s.user.authenticated = false) :
    (login s u pw res salt).1.user.authenticated = false ∧
    (login s u pw res salt).1.user.password = "" ∧
    (login s u pw res salt).1.store = s.store ∧
    (login s u pw res salt).1.settings = s.settings ∧
    (login s u pw res salt).2.filter isPersistedSetState = [] := by
  unfold login loginFailure
  rw [hnotok]
  cases hrl : rateLimitFailMessage res.data <;>
    simp [Patch.apply, passwordClearPatch, hauth, isPersistedSetState]

/-- C3 witness: the failure frame at a concrete invalid-credentials run. -/
theorem login_failure_frame_witness :
    (notokStatus badCredsResponse.status = true ∧
     initialState.user.authenticated = false) ∧
    ((login initialState "u" "pw" badCredsResponse "salt").1.user.authenticated = false ∧
     (login initialState "u" "pw" badCredsResponse "salt").1.user.password = "" ∧
     (login initialState "u" "pw" badCredsResponse "salt").1.store = initialState.store ∧
     (login initialState "u" "pw" badCredsResponse "salt").1.settings = initialState.settings ∧
     (login initialState "u" "pw" badCredsResponse "salt").2.filter isPersistedSetState = []) :=
  ⟨⟨by decide, by decide⟩,
   login_failure_frame initialState "u" "pw" badCredsResponse "salt" (by decide) (by decide)⟩

/-- C4: on a successful entitled login the persisted updates are exactly
three, using exactly two persistence regimes: the first, setting only the
authentication flag and the username, and the landing-view update both carry
an explicit encryption-disabled override, while the credential-bearing update
(client id, user id, plaintext password, SIP token, realName) is persisted
under the store's normal encryption policy, with no override. -/
theorem login_two_persistence_regimes (s : AppState) (u pw : String)
    (res : ApiResponse) (salt : String)
    (hok : notokStatus res.status = false)
    (hcl : falsyClient res.data.client = false) :
    ∃ layer,
      (login s u pw res salt).2.filter isPersistedSetState =
        [Event.setState (authFlagPatch u) { persist := true, encrypt := some false },
         Event.setState (postLoginUiPatch layer) { persist := true, encrypt := some false },
         Event.setState (credentialPatch pw res.data) { persist := true, encrypt := none }] := by
  unfold login loginEntitled
  rw [hok, hcl]
  refine ⟨if s.app.installed then "settings" else "contacts", ?_⟩
  cases he : s.store.encrypted <;> cases hi : s.app.installed <;>
    simp [isPersistedSetState, he, hi, Patch.apply, authFlagPatch,
      loadIdentityEffect_app, unlockVaultEffect_app]

/-- C4 witness: the persistence regimes at a concrete entitled login. -/
theorem login_two_persistence_regimes_witness :
    (notokStatus entitledResponse.status = false ∧
     falsyClient entitledResponse.data.client = false) ∧
    (∃ layer,
      (login initialState "u" "pw" entitledResponse "salt").2.filter isPersistedSetState =
        [Event.setState (authFlagPatch "u") { persist := true, encrypt := some false },
         Event.setState (postLoginUiPatch layer) { persist := true, encrypt := some false },
         Event.setState (credentialPatch "pw" entitledResponse.data)
           { persist := true, encrypt := none }]) :=
  ⟨⟨by decide, by decide⟩,
   login_two_persistence_regimes initialState "u" "pw" entitledResponse "salt"
     (by decide) (by decide)⟩

/-- C5: on a 2xx response whose profile lacks client-type entitlement,
`login` performs exactly the full `logout` transition (same resulting state
and same effect trace, goodbye notification included, after the initial
credential setup), derives no vault key, and leaves `authenticated` false. -/
theorem login_unentitled_runs_logout (s : AppState) (u pw : String)
    (res : ApiResponse) (salt : String)
    (hok : notokStatus res.status = false)
    (hcl : falsyClient res.data.client = true) :
    (login s u pw res salt).1 = (logout s).1 ∧
    (login s u pw res salt).2 = Event.setupClient (some (u, pw)) :: (logout s).2 ∧
    (login s u pw res salt).1.user.authenticated = false ∧
    (∀ a b : String, Event.unlockVault a b ∉ (login s u pw res salt).2 ∧
      Event.loadIdentity a b ∉ (login s u pw res salt).2) := by
  unfold login
  rw [hok, hcl]
  refine ⟨rfl, rfl, ?_, ?_⟩
  · simp [logout, Patch.apply, logoutClearPatch, menubarInactivePatch]
  · intro a b
    constructor <;> simp [logout]

/-- C5 witness: the logout transition at a concrete unentitled login. -/
theorem login_unentitled_runs_logout_witness :
    (notokStatus unentitledResponse.status = false ∧
     falsyClient unentitledResponse.data.client = true) ∧
    ((login initialState "u" "pw" unentitledResponse "salt").1 = (logout initialState).1 ∧
     (login initialState "u" "pw" unentitledResponse "salt").2 =
       Event.setupClient (some ("u", "pw")) :: (logout initialState).2 ∧
     (login initialState "u" "pw" unentitledResponse "salt").1.user.authenticated = false ∧
     (∀ a b : String,
       Event.unlockVault a b ∉ (login initialState "u" "pw" unentitledResponse "salt").2 ∧
       Event.loadIdentity a b ∉ (login initialState "u" "pw" unentitledResponse "salt").2)) :=
  ⟨⟨by decide, by decide⟩,
   login_unentitled_runs_logout initialState "u" "pw" unentitledResponse "salt"
     (by decide) (by decide)⟩

/-- C6: at a NOTOK response whose error body lacks the rate-limit marker, the
JS `message` variable is never assigned (the generic-credentials branch is
the `else` of the `res.data.error` test, not of the marker test), so the
emitted notification carries no message at all instead of the generic
invalid-credentials text the claim requires. -/
theorem login_error_body_notification_undefined :
    notokStatus badCredsResponse.status = true ∧
    badCredsResponse.data.error = some { message := "Invalid credentials provided" } ∧
    jsIncludes "Invalid credentials provided" rateLimitMarker = false ∧
    (login initialState "u" "pw" badCredsResponse "salt").2.filter isNotify =
      [Event.notify
        { icon := "warning", message := none, msgType := "warning", timeout := none }] := by
  decide

/-- C7: on a NOTOK response whose error message contains the rate-limit
marker, the timestamp embedded in the surfaced notification is exactly the
8-character substring of the error message at indices `length - 9` through
`length - 2`, the window immediately preceding the final character. -/
theorem login_rate_limit_timestamp (s : AppState) (u pw : String)
    (res : ApiResponse) (salt : String) (err : ApiError)
    (hnotok : notokStatus res.status = true)
    (herr : res.data.error = some err)
    (hmark : jsIncludes err.message rateLimitMarker = true) :
    ∃ d,
      Event.notify
          { icon := "warning", message := some (NotifyMessage.rateLimited d)
            msgType := "warning", timeout := none } ∈ (login s u pw res salt).2 ∧
      d.toList = (err.message.toList.drop (err.message.length - 9)).take 8 ∧
      d.length = 8 := by
  have hlen : 9 ≤ err.message.length := by
    have h30 := jsIncludes_length err.message rateLimitMarker hmark
    have hm : rateLimitMarker.length = 30 := by decide
    omega
  refine ⟨jsSubstring err.message
    ((err.message.length : Int) - 9) ((err.message.length : Int) - 1), ?_, ?_, ?_⟩
  · unfold login loginFailure
    rw [hnotok]
    cases hrl : rateLimitFailMessage res.data <;>
      simp [failureNotification, rateLimitFailMessage, herr, hmark]
  · exact jsSubstring_tail_window err.message hlen
  · exact jsSubstring_tail_window_length err.message hlen

/-- C7 witness: the timestamp extraction at the spec's worked example, where
the extracted window is `13:45:00`. -/
theorem login_rate_limit_timestamp_witness :
    (notokStatus rateLimitResponse.status = true ∧
     rateLimitResponse.data.error = some { message := rateLimitMessageText } ∧
     jsIncludes rateLimitMessageText rateLimitMarker = true) ∧
    (∃ d,
      Event.notify
          { icon := "warning", message := some (NotifyMessage.rateLimited d)
            msgType := "warning", timeout := none } ∈
        (login initialState "u" "pw" rateLimitResponse "salt").2 ∧
      d.toList =
        (rateLimitMessageText.toList.drop (rateLimitMessageText.length - 9)).take 8 ∧
      d.length = 8) :=
  ⟨⟨by decide, by decide, by decide⟩,
   login_rate_limit_timestamp initialState "u" "pw" rateLimitResponse "salt"
     { message := rateLimitMessageText }
     (by decide) (by decide) (by decide)⟩

/-- C8 counterexample: a raw client identifier containing a dot is stored
with the dot kept — the replace pattern excludes digits and the dot, so the
stored client id is not digits-only as claimed. -/
theorem login_client_id_retains_dot :
    (login initialState "u" "pw" dottedClientResponse "salt").1.user.client_id
        = some "12.34" ∧
    "12.34".toList.all Char.isDigit = false := by
  decide

/-- C8 amended: on a successful entitled login the stored client id equals
the raw client identifier with every character that is neither a decimal
digit nor a dot removed; every character of the result is a digit or a dot. -/
theorem login_client_id_digits_or_dots (s : AppState) (u pw : String)
    (res : ApiResponse) (salt raw : String)
    (hok : notokStatus res.status = false)
    (hcl : falsyClient res.data.client = false)
    (hraw : res.data.client = some raw) :
    (login s u pw res salt).1.user.client_id = some (stripClientId raw) ∧
    (stripClientId raw).toList.all (fun c => c.isDigit || c == '.') = true := by
  constructor
  · unfold login loginEntitled
    rw [hok, hcl]
    simp [Patch.apply, credentialPatch, hraw]
  · simp only [stripClientId, List.all_eq_true]
    intro c hc
    have hm : c ∈ raw.toList.filter (fun c => c.isDigit || c == '.') := hc
    exact (List.mem_filter.mp hm).2

/-- C8 amended witness: the stripped client id at a concrete dotted input. -/
theorem login_client_id_digits_or_dots_witness :
    (notokStatus dottedClientResponse.status = false ∧
     falsyClient dottedClientResponse.data.client = false ∧
     dottedClientResponse.data.client = some "12.34") ∧
    ((login initialState "u" "pw" dottedClientResponse "salt").1.user.client_id
        = some (stripClientId "12.34") ∧
     (stripClientId "12.34").toList.all (fun c => c.isDigit || c == '.') = true) :=
  ⟨⟨by decide, by decide, rfl⟩,
   login_client_id_digits_or_dots initialState "u" "pw" dottedClientResponse "salt" "12.34"
     (by decide) (by decide) rfl⟩

/-- C9: `newCallAllowed` returns false exactly when some call of the set has
a status in the blocking set (new, create, invite); with none it returns
true, regardless of how many calls have any other status. -/
theorem newCallAllowed_blocking_iff (calls : List Call) :
    newCallAllowed calls = false ↔ ∃ c ∈ calls, c.status ∈ blockingStatuses := by
  rw [newCallAllowed_eq_all]
  simp [List.elem_iff]

/-- C10: `login` records a `window.failMessage` write exactly on the
rate-limited failure path (NOTOK status, error body whose message contains
the rate-limit marker), the written value is the raw failure message, and
`logout` never writes it. -/
theorem window_fail_message_rate_limit_only (s : AppState) (u pw : String)
    (res : ApiResponse) (salt m : String) :
    (Event.setWindowFailMessage m ∈ (login s u pw res salt).2 ↔
      notokStatus res.status = true ∧
      ∃ err, res.data.error = some err ∧
        jsIncludes err.message rateLimitMarker = true ∧ m = err.message) ∧
    ((login s u pw res salt).1.windowFailMessage =
      if notokStatus res.status then
        match rateLimitFailMessage res.data with
        | some msg => some msg
        | none => s.windowFailMessage
      else s.windowFailMessage) ∧
    Event.setWindowFailMessage m ∉ (logout s).2 := by
  refine ⟨?_, ?_, ?_⟩
  · unfold login
    cases hnotok : notokStatus res.status
    · cases hcl : falsyClient res.data.client
      · cases he : s.store.encrypted <;> simp [loginEntitled, hnotok, hcl, he]
      · simp [logout, hnotok, hcl]
    · unfold loginFailure
      cases herr : res.data.error with
      | none => simp [rateLimitFailMessage, herr, hnotok]
      | some err =>
        cases hmark : jsIncludes err.message rateLimitMarker <;>
          simp [rateLimitFailMessage, herr, hmark, hnotok]
  · unfold login
    cases hnotok : notokStatus res.status
    · cases hcl : falsyClient res.data.client
      · cases he : s.store.encrypted
        · cases hs : s.store.salt <;>
            simp [loginEntitled, Patch.apply, loadIdentityEffect, hnotok, hcl, he, hs]
        · simp [loginEntitled, Patch.apply, unlockVaultEffect, hnotok, hcl, he]
      · simp [logout, Patch.apply, hnotok, hcl]
    · unfold loginFailure
      cases hrl : rateLimitFailMessage res.data <;>
        simp [Patch.apply, hrl, hnotok]
  · simp [logout]

end Vialer
